import Mathlib

/-!
Verification development for the Scan Stage of the rolldown bundler
(crates/rolldown/src/stages/scan_stage.rs).

The Rust code is shallowly embedded: external collaborators (the resolver /
plugin pipeline, the module loader) are passed as explicit function
parameters, concurrency is modelled as an explicit completion schedule
(`sched : List Nat`), and the observable behaviour of `scan` is a trace of
events plus a result.
-/

/-- Mirrors rolldown_common::ImportKind (only `Import` is used by the scan stage). -/
inductive ImportKind where
  | Import
  | DynamicImport
  | Require
deriving DecidableEq

/-- Mirrors rolldown_plugin::HookResolveIdArgsOptions as used at the entry-resolution call site. -/
structure HookResolveIdArgsOptions where (is_entry : Bool) (kind : ImportKind)
deriving DecidableEq

/-- Mirrors the resolved path carried inside ResolvedRequestInfo (the code reads info.path.path). -/
structure ResolvedPath where (path : String)
deriving DecidableEq

/-- Mirrors types::resolved_request_info::ResolvedRequestInfo: output of resolver + plugin pipeline. -/
structure ResolvedRequestInfo where (path : ResolvedPath) (is_external : Bool)
deriving DecidableEq

/-- Mirrors rolldown_error::BuildError restricted to what the scan stage produces:
the code constructs BuildError::entry_cannot_be_external; resolver / loader
failures are carried through opaquely as `other`. -/
inductive BuildError where
  | entry_cannot_be_external (path : String)
  | other (msg : String)
deriving DecidableEq

/-- Mirrors rolldown_common::InputItem: an entry descriptor with an optional
user-given name and a specifier (field `import` in Rust; `import_` here since
`import` is a Lean keyword). -/
structure InputItem where (name : Option String) (import_ : String)
deriving DecidableEq

/-- Modelled from the spec: the Module Table holds "one entry per
uniquely-resolved module" (its Rust definition is not under src/); entries are
kept by canonical path. -/
structure ModuleTable where (normal_modules : List String) (external_modules : List String)
deriving DecidableEq

/-- Modelled from the spec: the Global Symbol Registry / Symbols table (its Rust
definition is not under src/); we keep only the final names, which is what the
determinism claim observes. -/
structure Symbols where (final_names : List String)
deriving DecidableEq

/-- Modelled from the spec: "RuntimeModuleBrief: identity and Symbol handles for
bundler-injected helpers" (its Rust definition is not under src/). -/
structure RuntimeModuleBrief where (id : Nat)
deriving DecidableEq

/-- Mirrors rolldown_common::EntryPoint: "optional user-given name + ModuleId". -/
structure EntryPoint where (name : Option String) (module_id : Nat)
deriving DecidableEq

/-- Mirrors rolldown_oxc_utils::OxcProgram (external parser output), kept opaque. -/
structure OxcProgram where (source : String)
deriving DecidableEq

/-- Mirrors module_loader::ModuleLoaderOutput, the record destructured by `scan`
at line 67 of scan_stage.rs. -/
structure ModuleLoaderOutput where
  module_table : ModuleTable
  entry_points : List EntryPoint
  symbols : Symbols
  runtime : RuntimeModuleBrief
  warnings : List BuildError
  ast_table : List OxcProgram
deriving DecidableEq

/-- Mirrors ScanStageOutput (scan_stage.rs lines 31-39): exactly the six fields
module_table, ast_table, entry_points, symbols, runtime, warnings. -/
structure ScanStageOutput where
  module_table : ModuleTable
  ast_table : List OxcProgram
  entry_points : List EntryPoint
  symbols : Symbols
  runtime : RuntimeModuleBrief
  warnings : List BuildError
deriving DecidableEq

/-- Observable events of one scan execution, in program order. -/
inductive ScanEvent where
  | SpawnRuntimeModuleTask
  | ResolveCall (specifier : String) (importer : Option String)
      (opts : HookResolveIdArgsOptions) (preserve_symlinks : Bool)
  | FetchAllModules
deriving DecidableEq

/-- Failure modes of `scan`: the `assert!` on empty input aborts the process,
and fatal errors are returned as a batched list (BatchedResult's Err side). -/
inductive ScanFailure where
  | assertionFailed (msg : String)
  | batched (errs : List BuildError)
deriving DecidableEq

/-- Behaviour of `resolve_id` (resolver + plugin pipeline, external
collaborators): specifier, importer, options, preserve_symlinks flag. -/
abbrev ResolverFn :=
  String → Option String → HookResolveIdArgsOptions → Bool → Except BuildError ResolvedRequestInfo

/-- Modelled from the spec: the Module Loader's `fetch_all_modules` (not under
src/) runs graph discovery to completion over the resolved user entries; per the
spec its ModuleId assignment order is "independent of fetch-completion order",
so it is a pure function of the entries alone. -/
abbrev LoaderFn :=
  List (Option String × ResolvedRequestInfo) → Except (List BuildError) ModuleLoaderOutput

/-- Option projection of an Except value. -/
def exceptToOption : Except ε α → Option α
  | Except.ok v => some v
  | Except.error _ => none

/-- Boolean success test of an Except value. -/
def exceptIsOk : Except ε α → Bool
  | Except.ok _ => true
  | Except.error _ => false

/-- One entry-resolution task (the async closure at scan_stage.rs lines 84-103):
its resolver call (recorded as an event) and its result.  An entry resolving
with is_external = true yields BuildError::entry_cannot_be_external on the
resolved path; otherwise the item's own name is paired with its resolution. -/
def resolve_entry_item (resolver : ResolverFn) (item : InputItem) :
    ScanEvent × Except BuildError (Option String × ResolvedRequestInfo) :=
  (ScanEvent.ResolveCall item.import_ none
      { is_entry := true, kind := ImportKind.Import } false,
   match resolver item.import_ none { is_entry := true, kind := ImportKind.Import } false with
   | Except.ok info =>
     if info.is_external then
       Except.error (BuildError.entry_cannot_be_external info.path.path)
     else
       Except.ok (item.name, info)
   | Except.error e => Except.error e)

/-- Tasks executed in the given completion order: task `i` computes `f` on the
`i`-th input, and its result is recorded against slot `i`. -/
def run_in_order (f : α → β) (inputs : List α) (order : List Nat) : List (Nat × β) :=
  order.filterMap fun i => (inputs[i]?).map fun a => (i, f a)

/-- Every spawned task eventually completes: indices missing from the raw
schedule are appended, indices out of range are dropped. -/
def complete_schedule (n : Nat) (sched : List Nat) : List Nat :=
  sched.filter (fun i => decide (i < n)) ++ (List.range n).filter (fun i => !(sched.contains i))

/-- Modelled from the spec: `block_on_spawn_all` (rolldown_utils, not under
src/) spawns one task per input, blocks until every task has completed (tasks
complete in the arbitrary order `sched`), and returns the results in input
order, each slot holding the result of the task spawned for that input. -/
def block_on_spawn_all (f : α → β) (inputs : List α) (sched : List Nat) : List β :=
  let completed := run_in_order f inputs (complete_schedule inputs.length sched)
  (List.range inputs.length).filterMap fun i => completed.lookup i

/-- Errors of a list of task results, in task order. -/
def collect_errs (results : List (Except BuildError α)) : List BuildError :=
  results.filterMap fun r => match r with
    | Except.error e => some e
    | Except.ok _ => none

/-- Successful values of a list of task results, in task order. -/
def collect_oks (results : List (Except BuildError α)) : List α :=
  results.filterMap exceptToOption

/-- Modelled from the spec: `IntoBatchedResult` (crate::error, not under src/)
turns a list of per-task results into one batched result: "fatal errors ...
are returned as a single batched failure" carrying every error, "rather than
only the first"; with no errors, the successful values are returned in order. -/
def into_batched_result (results : List (Except BuildError α)) :
    Except (List BuildError) (List α) :=
  if collect_errs results = [] then Except.ok (collect_oks results)
  else Except.error (collect_errs results)

/-- Mirrors ScanStage::resolve_user_defined_entries (scan_stage.rs lines
77-107): map every input item to its entry-resolution task, run all tasks via
block_on_spawn_all under completion order `sched`, and batch the results.
The first component is the list of resolver-call events (one per input item,
issued in input order). -/
def resolve_user_defined_entries (resolver : ResolverFn) (input : List InputItem)
    (sched : List Nat) :
    List ScanEvent × Except (List BuildError) (List (Option String × ResolvedRequestInfo)) :=
  (input.map fun item => (resolve_entry_item resolver item).fst,
   into_batched_result
     (block_on_spawn_all (fun item => (resolve_entry_item resolver item).snd) input sched))

/-- Errors produced by entry resolution, one per failing input item, in input
order. -/
def entry_errors (resolver : ResolverFn) (input : List InputItem) : List BuildError :=
  collect_errs (input.map fun item => (resolve_entry_item resolver item).snd)

/-- Mirrors ScanStage::scan (scan_stage.rs lines 52-73), line by line:
assert the input is non-empty (a failed assert aborts), build the module
loader, spawn the runtime module task, resolve the user-defined entries
(propagating a batched failure), run fetch_all_modules over them (propagating
a batched failure), and assemble ScanStageOutput from the loader's six
components. -/
def scan (resolver : ResolverFn) (fetch_all_modules : LoaderFn)
    (input : List InputItem) (sched : List Nat) :
    List ScanEvent × Except ScanFailure ScanStageOutput :=
  if input.isEmpty then
    ([], Except.error (ScanFailure.assertionFailed "You must supply options.input to rolldown"))
  else
    let r := resolve_user_defined_entries resolver input sched
    match r.snd with
    | Except.error errs =>
        (ScanEvent.SpawnRuntimeModuleTask :: r.fst,
         Except.error (ScanFailure.batched errs))
    | Except.ok user_entries =>
        match fetch_all_modules user_entries with
        | Except.error errs =>
            (ScanEvent.SpawnRuntimeModuleTask :: r.fst ++ [ScanEvent.FetchAllModules],
             Except.error (ScanFailure.batched errs))
        | Except.ok out =>
            (ScanEvent.SpawnRuntimeModuleTask :: r.fst ++ [ScanEvent.FetchAllModules],
             Except.ok { module_table := out.module_table, ast_table := out.ast_table,
                         entry_points := out.entry_points, symbols := out.symbols,
                         runtime := out.runtime, warnings := out.warnings })

/-- Event classifier: is this event a resolver call? -/
def is_resolve_call : ScanEvent → Bool
  | ScanEvent.ResolveCall _ _ _ _ => true
  | _ => false

/-- Decides whether, in a trace, every runtime-module spawn happens only after
all resolver calls (no resolver call at or after a spawn). -/
def runtime_spawn_after_resolution : List ScanEvent → Bool
  | [] => true
  | ScanEvent.SpawnRuntimeModuleTask :: rest =>
      rest.all (fun e => !(is_resolve_call e)) && runtime_spawn_after_resolution rest
  | _ :: rest => runtime_spawn_after_resolution rest

/-- Resolver fixture: every specifier resolves to itself, non-external. -/
def resolver_ok : ResolverFn := fun s _ _ _ => Except.ok { path := { path := s }, is_external := false }

/-- Resolver fixture: every specifier resolves to itself, external. -/
def resolver_ext : ResolverFn := fun s _ _ _ => Except.ok { path := { path := s }, is_external := true }

/-- Resolver fixture: every resolution fails, carrying the specifier. -/
def resolver_fail : ResolverFn := fun s _ _ _ => Except.error (BuildError.other s)

/-- Loader fixture: succeeds, registering entry paths as modules and reporting
one non-fatal warning. -/
def loader_ok : LoaderFn := fun entries =>
  Except.ok { module_table := { normal_modules := entries.map (fun e => e.snd.path.path),
                                external_modules := [] },
              entry_points := entries.map (fun e => { name := e.fst, module_id := 0 }),
              symbols := { final_names := [] },
              runtime := { id := 0 },
              warnings := [BuildError.other "circular dependency"],
              ast_table := [] }

/-! Infrastructure lemmas. -/

theorem filterMap_congr_mem {f g : α → Option β} :
    ∀ (l : List α), (∀ a ∈ l, f a = g a) → l.filterMap f = l.filterMap g := by
  intro l h
  induction l with
  | nil => rfl
  | cons a tl ih =>
    rw [List.filterMap_cons, List.filterMap_cons, h a (List.mem_cons_self a tl),
        ih (fun x hx => h x (List.mem_cons_of_mem a hx))]

theorem lookup_run_in_order (f : α → β) (inputs : List α) (i : Nat) (a : α)
    (hget : inputs[i]? = some a) :
    ∀ (order : List Nat), i ∈ order →
      (run_in_order f inputs order).lookup i = some (f a) := by
  intro order
  induction order with
  | nil => intro hmem; cases hmem
  | cons j rest ih =>
    intro hmem
    simp only [run_in_order, List.filterMap_cons] at ih ⊢
    by_cases hij : i = j
    · subst hij
      rw [hget]
      simp [List.lookup]
    · have hrest : i ∈ rest := by
        rcases List.mem_cons.mp hmem with h | h
        · exact absurd h hij
        · exact h
      have hne : (i == j) = false := beq_eq_false_iff_ne.mpr hij
      cases hj : inputs[j]? with
      | none => simpa using ih hrest
      | some b =>
        simp only [Option.map_some', List.lookup, hne]
        exact ih hrest

theorem mem_complete_schedule (n : Nat) (sched : List Nat) (i : Nat) (h : i < n) :
    i ∈ complete_schedule n sched := by
  by_cases hm : i ∈ sched
  · exact List.mem_append_left _ (List.mem_filter.mpr ⟨hm, by simpa using h⟩)
  · refine List.mem_append_right _ (List.mem_filter.mpr ⟨List.mem_range.mpr h, ?_⟩)
    simpa using hm

theorem range_filterMap_getElem_map (f : α → β) :
    ∀ (inputs : List α),
      (List.range inputs.length).filterMap (fun i => (inputs[i]?).map f) = inputs.map f := by
  intro inputs
  induction inputs with
  | nil => rfl
  | cons a tl ih =>
    rw [List.length_cons, List.range_succ_eq_map, List.filterMap_cons]
    simp only [List.getElem?_cons_zero, Option.map_some', List.filterMap_map,
               Function.comp_def, Nat.succ_eq_add_one, List.getElem?_cons_succ, List.map_cons]
    rw [ih]

theorem block_on_spawn_all_eq_map (f : α → β) (inputs : List α) (sched : List Nat) :
    block_on_spawn_all f inputs sched = inputs.map f := by
  rw [block_on_spawn_all]
  have hpt : ∀ i ∈ List.range inputs.length,
      (run_in_order f inputs (complete_schedule inputs.length sched)).lookup i
        = (inputs[i]?).map f := by
    intro i hi
    have hlt := List.mem_range.mp hi
    have ha : inputs[i]? = some inputs[i] := List.getElem?_eq_getElem hlt
    rw [ha, lookup_run_in_order f inputs i inputs[i] ha _
          (mem_complete_schedule inputs.length sched i hlt)]
    rfl
  rw [filterMap_congr_mem _ hpt]
  exact range_filterMap_getElem_map f inputs

theorem into_batched_result_of_no_errs (results : List (Except BuildError α))
    (h : collect_errs results = []) :
    into_batched_result results = Except.ok (collect_oks results) := by
  rw [into_batched_result, if_pos h]

theorem into_batched_result_of_errs (results : List (Except BuildError α))
    (h : collect_errs results ≠ []) :
    into_batched_result results = Except.error (collect_errs results) := by
  rw [into_batched_result, if_neg h]

theorem filterMap_all_some {f : α → Option β} :
    ∀ (l : List α), (∀ a ∈ l, (f a).isSome = true) →
      (l.filterMap f).length = l.length ∧ ∀ i : Nat, (l.filterMap f)[i]? = (l[i]?).bind f := by
  intro l
  induction l with
  | nil => intro _; exact ⟨rfl, fun i => by simp⟩
  | cons a tl ih =>
    intro h
    obtain ⟨b, hb⟩ := Option.isSome_iff_exists.mp (h a (List.mem_cons_self a tl))
    obtain ⟨ihlen, ihidx⟩ := ih (fun x hx => h x (List.mem_cons_of_mem a hx))
    constructor
    · rw [List.filterMap_cons, hb, List.length_cons, List.length_cons, ihlen]
    · intro i
      cases i with
      | zero => rw [List.filterMap_cons, hb]; simp [hb]
      | succ k =>
        rw [List.filterMap_cons, hb, List.getElem?_cons_succ, List.getElem?_cons_succ, ihidx k]

theorem resolve_entries_fst (resolver : ResolverFn) (input : List InputItem) (sched : List Nat) :
    (resolve_user_defined_entries resolver input sched).fst
      = input.map fun item => (resolve_entry_item resolver item).fst := rfl

theorem resolve_entries_snd (resolver : ResolverFn) (input : List InputItem) (sched : List Nat) :
    (resolve_user_defined_entries resolver input sched).snd
      = into_batched_result (input.map fun item => (resolve_entry_item resolver item).snd) := by
  simp only [resolve_user_defined_entries, block_on_spawn_all_eq_map]

/-- C5: for the empty entry descriptor list, the scan fails at the initial
assertion with the fatal configuration error "You must supply options.input to
rolldown"; its event trace is empty, so it never proceeds to resolution, never
spawns the runtime module task, and never produces a successful output. -/
theorem scan_empty_input_fatal (resolver : ResolverFn) (loader : LoaderFn) (sched : List Nat) :
    scan resolver loader [] sched
      = ([], Except.error
          (ScanFailure.assertionFailed "You must supply options.input to rolldown")) := rfl

theorem scan_of_resolve_error (resolver : ResolverFn) (loader : LoaderFn)
    (input : List InputItem) (sched : List Nat) (errs : List BuildError)
    (hne : input ≠ [])
    (herr : (resolve_user_defined_entries resolver input sched).snd = Except.error errs) :
    scan resolver loader input sched
      = (ScanEvent.SpawnRuntimeModuleTask
           :: (resolve_user_defined_entries resolver input sched).fst,
         Except.error (ScanFailure.batched errs)) := by
  rw [scan, if_neg (fun h => hne (List.isEmpty_iff.mp (by simpa using h)))]
  simp only [herr]

theorem scan_of_resolve_ok_loader_error (resolver : ResolverFn) (loader : LoaderFn)
    (input : List InputItem) (sched : List Nat)
    (entries : List (Option String × ResolvedRequestInfo)) (errs : List BuildError)
    (hne : input ≠ [])
    (hok : (resolve_user_defined_entries resolver input sched).snd = Except.ok entries)
    (hload : loader entries = Except.error errs) :
    scan resolver loader input sched
      = (ScanEvent.SpawnRuntimeModuleTask
           :: (resolve_user_defined_entries resolver input sched).fst
           ++ [ScanEvent.FetchAllModules],
         Except.error (ScanFailure.batched errs)) := by
  rw [scan, if_neg (fun h => hne (List.isEmpty_iff.mp (by simpa using h)))]
  simp only [hok, hload]

theorem scan_of_resolve_ok_loader_ok (resolver : ResolverFn) (loader : LoaderFn)
    (input : List InputItem) (sched : List Nat)
    (entries : List (Option String × ResolvedRequestInfo)) (out : ModuleLoaderOutput)
    (hne : input ≠ [])
    (hok : (resolve_user_defined_entries resolver input sched).snd = Except.ok entries)
    (hload : loader entries = Except.ok out) :
    scan resolver loader input sched
      = (ScanEvent.SpawnRuntimeModuleTask
           :: (resolve_user_defined_entries resolver input sched).fst
           ++ [ScanEvent.FetchAllModules],
         Except.ok { module_table := out.module_table, ast_table := out.ast_table,
                     entry_points := out.entry_points, symbols := out.symbols,
                     runtime := out.runtime, warnings := out.warnings }) := by
  rw [scan, if_neg (fun h => hne (List.isEmpty_iff.mp (by simpa using h)))]
  simp only [hok, hload]

theorem exceptIsOk_iff (r : Except ε α) : exceptIsOk r = true ↔ ∃ v, r = Except.ok v := by
  cases r with
  | ok v => simp [exceptIsOk]
  | error e => simp [exceptIsOk]

theorem resolve_entry_item_fst (resolver : ResolverFn) (item : InputItem) :
    (resolve_entry_item resolver item).fst
      = ScanEvent.ResolveCall item.import_ none
          { is_entry := true, kind := ImportKind.Import } false := rfl

theorem resolve_entry_item_snd_of_external (resolver : ResolverFn) (item : InputItem)
    (info : ResolvedRequestInfo)
    (hres : resolver item.import_ none { is_entry := true, kind := ImportKind.Import } false
              = Except.ok info)
    (hext : info.is_external = true) :
    (resolve_entry_item resolver item).snd
      = Except.error (BuildError.entry_cannot_be_external info.path.path) := by
  simp only [resolve_entry_item, hres, hext, if_true]

theorem resolve_entry_item_snd_of_ok (resolver : ResolverFn) (item : InputItem)
    (info : ResolvedRequestInfo)
    (hres : resolver item.import_ none { is_entry := true, kind := ImportKind.Import } false
              = Except.ok info)
    (hext : info.is_external = false) :
    (resolve_entry_item resolver item).snd = Except.ok (item.name, info) := by
  simp [resolve_entry_item, hres, hext]

theorem resolve_entry_item_snd_of_error (resolver : ResolverFn) (item : InputItem)
    (e : BuildError)
    (hres : resolver item.import_ none { is_entry := true, kind := ImportKind.Import } false
              = Except.error e) :
    (resolve_entry_item resolver item).snd = Except.error e := by
  simp only [resolve_entry_item, hres]

theorem mem_collect_errs (results : List (Except BuildError α)) (e : BuildError)
    (h : Except.error e ∈ results) : e ∈ collect_errs results := by
  rw [collect_errs]
  exact List.mem_filterMap.mpr ⟨Except.error e, h, rfl⟩

theorem collect_errs_eq_nil (results : List (Except BuildError α))
    (h : ∀ r ∈ results, exceptIsOk r = true) : collect_errs results = [] := by
  rw [collect_errs]
  refine List.filterMap_eq_nil_iff.mpr (fun r hr => ?_)
  obtain ⟨v, hv⟩ := (exceptIsOk_iff r).mp (h r hr)
  rw [hv]

theorem resolve_entries_snd_ok (resolver : ResolverFn) (input : List InputItem)
    (sched : List Nat)
    (hall : ∀ item ∈ input, exceptIsOk (resolve_entry_item resolver item).snd = true) :
    (resolve_user_defined_entries resolver input sched).snd
      = Except.ok (collect_oks (input.map fun item => (resolve_entry_item resolver item).snd)) := by
  rw [resolve_entries_snd]
  refine into_batched_result_of_no_errs _ (collect_errs_eq_nil _ ?_)
  intro r hr
  obtain ⟨item, hmem, rfl⟩ := List.mem_map.mp hr
  exact hall item hmem

theorem resolve_entries_snd_error (resolver : ResolverFn) (input : List InputItem)
    (sched : List Nat) (hne : entry_errors resolver input ≠ []) :
    (resolve_user_defined_entries resolver input sched).snd
      = Except.error (entry_errors resolver input) := by
  rw [resolve_entries_snd]
  exact into_batched_result_of_errs _ hne

theorem exceptToOption_isSome (r : Except ε α) (h : exceptIsOk r = true) :
    (exceptToOption r).isSome = true := by
  obtain ⟨v, rfl⟩ := (exceptIsOk_iff r).mp h
  rfl

theorem spawn_not_mem_resolve_events (resolver : ResolverFn) (input : List InputItem) :
    ScanEvent.SpawnRuntimeModuleTask
      ∉ (input.map fun item => (resolve_entry_item resolver item).fst) := by
  intro h
  obtain ⟨item, _, habs⟩ := List.mem_map.mp h
  rw [resolve_entry_item_fst] at habs
  exact ScanEvent.noConfusion habs

theorem fetch_not_mem_resolve_events (resolver : ResolverFn) (input : List InputItem) :
    ScanEvent.FetchAllModules
      ∉ (input.map fun item => (resolve_entry_item resolver item).fst) := by
  intro h
  obtain ⟨item, _, habs⟩ := List.mem_map.mp h
  rw [resolve_entry_item_fst] at habs
  exact ScanEvent.noConfusion habs

theorem collect_oks_of_all_ok (resolver : ResolverFn) (input : List InputItem)
    (hall : ∀ it ∈ input, exceptIsOk (resolve_entry_item resolver it).snd = true) :
    (collect_oks (input.map fun it => (resolve_entry_item resolver it).snd)).length
        = input.length
    ∧ ∀ i : Nat,
        (collect_oks (input.map fun it => (resolve_entry_item resolver it).snd))[i]?
          = (input[i]?).bind (fun it => exceptToOption (resolve_entry_item resolver it).snd) := by
  have hsome : ∀ r ∈ input.map (fun it => (resolve_entry_item resolver it).snd),
      (exceptToOption r).isSome = true := by
    intro r hr
    obtain ⟨it, hmem, rfl⟩ := List.mem_map.mp hr
    exact exceptToOption_isSome _ (hall it hmem)
  obtain ⟨hlen, hidx⟩ := filterMap_all_some _ hsome
  constructor
  · rw [collect_oks, hlen, List.length_map]
  · intro i
    rw [collect_oks, hidx i, List.getElem?_map]
    cases input[i]? with
    | none => rfl
    | some it => rfl

/-! Claim theorems. -/

/-- C1: whenever some entry specifier in a (necessarily non-empty, since it has
a member) input list resolves with is_external = true, the scan returns a
batched error that contains EntryCannotBeExternal for the resolved path, and
its trace contains no FetchAllModules event, so the failure happens before any
module is fetched and the error result carries only errors, no Module Table
entries. -/
theorem scan_entry_external_fatal (resolver : ResolverFn) (loader : LoaderFn)
    (input : List InputItem) (sched : List Nat) (item : InputItem)
    (info : ResolvedRequestInfo)
    (hmem : item ∈ input)
    (hres : resolver item.import_ none { is_entry := true, kind := ImportKind.Import } false
              = Except.ok info)
    (hext : info.is_external = true) :
    (scan resolver loader input sched).snd
        = Except.error (ScanFailure.batched (entry_errors resolver input))
      ∧ BuildError.entry_cannot_be_external info.path.path ∈ entry_errors resolver input
      ∧ ScanEvent.FetchAllModules ∉ (scan resolver loader input sched).fst := by
  have hne : input ≠ [] := List.ne_nil_of_mem hmem
  have hitem := resolve_entry_item_snd_of_external resolver item info hres hext
  have herrmem : BuildError.entry_cannot_be_external info.path.path
      ∈ entry_errors resolver input := by
    refine mem_collect_errs _ _ (List.mem_map.mpr ⟨item, hmem, ?_⟩)
    exact hitem
  have hene : entry_errors resolver input ≠ [] := List.ne_nil_of_mem herrmem
  have hsnd := resolve_entries_snd_error resolver input sched hene
  have hscan := scan_of_resolve_error resolver loader input sched _ hne hsnd
  refine ⟨by rw [hscan], herrmem, ?_⟩
  rw [hscan]
  intro hmemtr
  rcases List.mem_cons.mp hmemtr with habs | habs
  · exact ScanEvent.noConfusion habs
  · rw [resolve_entries_fst] at habs
    exact fetch_not_mem_resolve_events resolver input habs

/-- C1 witness: a single entry "a" that resolves external makes the scan fail
with a batched EntryCannotBeExternal and a trace free of FetchAllModules. -/
theorem scan_entry_external_fatal_witness :
    (scan resolver_ext loader_ok [{ name := none, import_ := "a" }] []).snd
        = Except.error
            (ScanFailure.batched (entry_errors resolver_ext [{ name := none, import_ := "a" }]))
      ∧ BuildError.entry_cannot_be_external "a"
          ∈ entry_errors resolver_ext [{ name := none, import_ := "a" }]
      ∧ ScanEvent.FetchAllModules
          ∉ (scan resolver_ext loader_ok [{ name := none, import_ := "a" }] []).fst :=
  scan_entry_external_fatal resolver_ext loader_ok [{ name := none, import_ := "a" }] []
    { name := none, import_ := "a" } { path := { path := "a" }, is_external := true }
    (List.mem_singleton.mpr rfl) rfl rfl

/-- C2 counterexample: at the concrete input ["a"] (which resolves fine), the
scan trace starts with SpawnRuntimeModuleTask and only then performs the
resolver call for the entry, so the property "Runtime Module discovery is
started only after entry resolution and the fail-fast check have completed" is
false: the trace fails the runtime_spawn_after_resolution check. -/
theorem scan_runtime_spawn_precedes_resolution :
    runtime_spawn_after_resolution
      (scan resolver_ok loader_ok [{ name := none, import_ := "a" }] []).fst = false := by
  decide

/-- C2 amended: for every non-empty input, the scan performs its steps in this
order: validate the non-empty entry list, create the module loader and start
Runtime Module discovery exactly once (BEFORE entry resolution, not after),
then resolve entries with the fail-fast external check, and run the Module
Loader (FetchAllModules) only when entry resolution succeeded. -/
theorem scan_stage_step_order (resolver : ResolverFn) (loader : LoaderFn)
    (input : List InputItem) (sched : List Nat) (h : input ≠ []) :
    (scan resolver loader input sched).fst
      = ScanEvent.SpawnRuntimeModuleTask
          :: (resolve_user_defined_entries resolver input sched).fst
          ++ (if exceptIsOk (resolve_user_defined_entries resolver input sched).snd
              then [ScanEvent.FetchAllModules] else []) := by
  cases hsnd : (resolve_user_defined_entries resolver input sched).snd with
  | error errs =>
    rw [scan_of_resolve_error resolver loader input sched errs h hsnd]
    simp [exceptIsOk]
  | ok entries =>
    cases hload : loader entries with
    | error errs =>
      rw [scan_of_resolve_ok_loader_error resolver loader input sched entries errs h hsnd hload]
      simp [exceptIsOk]
    | ok out =>
      rw [scan_of_resolve_ok_loader_ok resolver loader input sched entries out h hsnd hload]
      simp [exceptIsOk]

/-- C2 witness for the amended order statement, at the concrete input ["a"]. -/
theorem scan_stage_step_order_witness :
    (scan resolver_ok loader_ok [{ name := none, import_ := "a" }] []).fst
      = ScanEvent.SpawnRuntimeModuleTask
          :: (resolve_user_defined_entries resolver_ok [{ name := none, import_ := "a" }] []).fst
          ++ (if exceptIsOk
                  (resolve_user_defined_entries resolver_ok
                    [{ name := none, import_ := "a" }] []).snd
              then [ScanEvent.FetchAllModules] else []) :=
  scan_stage_step_order resolver_ok loader_ok [{ name := none, import_ := "a" }] []
    (by decide)

/-- C6: for every scan on a non-empty input (the assert permits nothing else to
run), the trace begins with SpawnRuntimeModuleTask and contains no further
SpawnRuntimeModuleTask event: the runtime-module discovery task is spawned
exactly once per scan. -/
theorem scan_spawns_runtime_exactly_once (resolver : ResolverFn) (loader : LoaderFn)
    (input : List InputItem) (sched : List Nat) (h : input ≠ []) :
    ∃ rest, (scan resolver loader input sched).fst
        = ScanEvent.SpawnRuntimeModuleTask :: rest
      ∧ ScanEvent.SpawnRuntimeModuleTask ∉ rest := by
  have hres : ScanEvent.SpawnRuntimeModuleTask
      ∉ (resolve_user_defined_entries resolver input sched).fst := by
    rw [resolve_entries_fst]
    exact spawn_not_mem_resolve_events resolver input
  cases hsnd : (resolve_user_defined_entries resolver input sched).snd with
  | error errs =>
    rw [scan_of_resolve_error resolver loader input sched errs h hsnd]
    exact ⟨_, rfl, hres⟩
  | ok entries =>
    cases hload : loader entries with
    | error errs =>
      rw [scan_of_resolve_ok_loader_error resolver loader input sched entries errs h hsnd hload]
      refine ⟨_, rfl, ?_⟩
      intro habs
      rcases List.mem_append.mp habs with habs | habs
      · exact hres habs
      · simp at habs
    | ok out =>
      rw [scan_of_resolve_ok_loader_ok resolver loader input sched entries out h hsnd hload]
      refine ⟨_, rfl, ?_⟩
      intro habs
      rcases List.mem_append.mp habs with habs | habs
      · exact hres habs
      · simp at habs

/-- C6 witness: at the concrete input ["a"], the runtime module task is spawned
exactly once. -/
theorem scan_spawns_runtime_exactly_once_witness :
    ∃ rest, (scan resolver_ok loader_ok [{ name := none, import_ := "a" }] []).fst
        = ScanEvent.SpawnRuntimeModuleTask :: rest
      ∧ ScanEvent.SpawnRuntimeModuleTask ∉ rest :=
  scan_spawns_runtime_exactly_once resolver_ok loader_ok [{ name := none, import_ := "a" }] []
    (by decide)

/-- C3: when every entry of the input list resolves successfully (and
non-external, which is what makes its task succeed), entry resolution returns
the same output list under any two completion schedules, that list has the
same length as the input, and its i-th element is the resolution of the i-th
input item — input order is preserved regardless of completion order. -/
theorem resolve_entries_preserve_input_order (resolver : ResolverFn)
    (input : List InputItem) (sched₁ sched₂ : List Nat)
    (hall : ∀ item ∈ input, exceptIsOk (resolve_entry_item resolver item).snd = true) :
    ∃ out,
      (resolve_user_defined_entries resolver input sched₁).snd = Except.ok out
      ∧ (resolve_user_defined_entries resolver input sched₂).snd = Except.ok out
      ∧ out.length = input.length
      ∧ ∀ i : Nat, out[i]?
          = (input[i]?).bind (fun item => exceptToOption (resolve_entry_item resolver item).snd) := by
  obtain ⟨hlen, hidx⟩ := collect_oks_of_all_ok resolver input hall
  exact ⟨_, resolve_entries_snd_ok resolver input sched₁ hall,
         resolve_entries_snd_ok resolver input sched₂ hall, hlen, hidx⟩

/-- C3 witness: two entries "a" and "b", resolved under the completion
schedules [1, 0] (second task finishes first) and [] (order filled in by
completion), give one and the same output list of length 2 in input order. -/
theorem resolve_entries_preserve_input_order_witness :
    ∃ out,
      (resolve_user_defined_entries resolver_ok
          [{ name := none, import_ := "a" }, { name := some "b-name", import_ := "b" }]
          [1, 0]).snd = Except.ok out
      ∧ (resolve_user_defined_entries resolver_ok
          [{ name := none, import_ := "a" }, { name := some "b-name", import_ := "b" }]
          []).snd = Except.ok out
      ∧ out.length
          = [{ name := none, import_ := "a" },
             ({ name := some "b-name", import_ := "b" } : InputItem)].length
      ∧ ∀ i : Nat, out[i]?
          = ([{ name := none, import_ := "a" },
              ({ name := some "b-name", import_ := "b" } : InputItem)][i]?).bind
              (fun item => exceptToOption (resolve_entry_item resolver_ok item).snd) :=
  resolve_entries_preserve_input_order resolver_ok
    [{ name := none, import_ := "a" }, { name := some "b-name", import_ := "b" }]
    [1, 0] [] (by decide)

/-- C4: whenever some entry fails resolution fatally (resolver error or
external entry), the scan aborts with a batched failure carrying
entry_errors — the input-ordered list of the errors of ALL failing entries,
not just the first: every failing entry's error is a member of the returned
batch. -/
theorem scan_returns_all_entry_errors (resolver : ResolverFn) (loader : LoaderFn)
    (input : List InputItem) (sched : List Nat) (item : InputItem) (e : BuildError)
    (hmem : item ∈ input)
    (hfail : (resolve_entry_item resolver item).snd = Except.error e) :
    (scan resolver loader input sched).snd
        = Except.error (ScanFailure.batched (entry_errors resolver input))
      ∧ ∀ it err, it ∈ input → (resolve_entry_item resolver it).snd = Except.error err →
          err ∈ entry_errors resolver input := by
  have hne : input ≠ [] := List.ne_nil_of_mem hmem
  have hall : ∀ it err, it ∈ input →
      (resolve_entry_item resolver it).snd = Except.error err →
      err ∈ entry_errors resolver input := by
    intro it err hit herr
    refine mem_collect_errs _ _ (List.mem_map.mpr ⟨it, hit, ?_⟩)
    exact herr
  have hene : entry_errors resolver input ≠ [] :=
    List.ne_nil_of_mem (hall item e hmem hfail)
  have hsnd := resolve_entries_snd_error resolver input sched hene
  have hscan := scan_of_resolve_error resolver loader input sched _ hne hsnd
  exact ⟨by rw [hscan], hall⟩

/-- C4 witness: entries "a" and "b" both fail resolution; the scan returns the
single batched failure entry_errors, which contains both errors (it evaluates
to the two-element list [other "a", other "b"]). -/
theorem scan_returns_all_entry_errors_witness :
    (scan resolver_fail loader_ok
        [{ name := none, import_ := "a" }, { name := none, import_ := "b" }] []).snd
        = Except.error
            (ScanFailure.batched
              (entry_errors resolver_fail
                [{ name := none, import_ := "a" }, { name := none, import_ := "b" }]))
      ∧ ∀ it err,
          it ∈ [{ name := none, import_ := "a" },
                ({ name := none, import_ := "b" } : InputItem)] →
          (resolve_entry_item resolver_fail it).snd = Except.error err →
          err ∈ entry_errors resolver_fail
                  [{ name := none, import_ := "a" }, { name := none, import_ := "b" }] :=
  scan_returns_all_entry_errors resolver_fail loader_ok
    [{ name := none, import_ := "a" }, { name := none, import_ := "b" }] []
    { name := none, import_ := "a" } (BuildError.other "a") (by decide) rfl

/-- Sanity: the batched failure of the C4 witness input really holds both
errors, in input order. -/
theorem entry_errors_two_failures :
    entry_errors resolver_fail
        [{ name := none, import_ := "a" }, { name := none, import_ := "b" }]
      = [BuildError.other "a", BuildError.other "b"] := rfl

/-- C7: every successful scan output is assembled from exactly the six
components of the module loader's output — module_table, ast_table (syntax
trees), entry_points, symbols (global symbol registry), runtime (runtime
module brief) and warnings — and the warnings accumulated by the loader during
scanning are returned unchanged in the successful result's warnings list. -/
theorem scan_success_output_components (resolver : ResolverFn) (loader : LoaderFn)
    (input : List InputItem) (sched : List Nat) (out : ScanStageOutput)
    (h : (scan resolver loader input sched).snd = Except.ok out) :
    ∃ entries lo,
      (resolve_user_defined_entries resolver input sched).snd = Except.ok entries
      ∧ loader entries = Except.ok lo
      ∧ out = { module_table := lo.module_table, ast_table := lo.ast_table,
                entry_points := lo.entry_points, symbols := lo.symbols,
                runtime := lo.runtime, warnings := lo.warnings }
      ∧ out.warnings = lo.warnings := by
  by_cases hin : input = []
  · subst hin
    rw [scan_empty_input_fatal] at h
    exact absurd h (by simp)
  · cases hsnd : (resolve_user_defined_entries resolver input sched).snd with
    | error errs =>
      rw [scan_of_resolve_error resolver loader input sched errs hin hsnd] at h
      exact absurd h (by simp)
    | ok entries =>
      cases hload : loader entries with
      | error errs =>
        rw [scan_of_resolve_ok_loader_error resolver loader input sched entries errs
              hin hsnd hload] at h
        exact absurd h (by simp)
      | ok lo =>
        rw [scan_of_resolve_ok_loader_ok resolver loader input sched entries lo
              hin hsnd hload] at h
        refine ⟨entries, lo, rfl, hload, ?_, ?_⟩
        · exact (Except.ok.inj h).symm
        · rw [(Except.ok.inj h).symm]

/-- C7 witness: a successful scan of the single entry "a" produces exactly the
loader's six components, warnings included. -/
theorem scan_success_output_components_witness :
    ∃ entries lo,
      (resolve_user_defined_entries resolver_ok [{ name := some "main", import_ := "a" }] []).snd
        = Except.ok entries
      ∧ loader_ok entries = Except.ok lo
      ∧ ({ module_table := { normal_modules := ["a"], external_modules := [] },
           ast_table := [],
           entry_points := [{ name := some "main", module_id := 0 }],
           symbols := { final_names := [] },
           runtime := { id := 0 },
           warnings := [BuildError.other "circular dependency"] } : ScanStageOutput)
          = { module_table := lo.module_table, ast_table := lo.ast_table,
              entry_points := lo.entry_points, symbols := lo.symbols,
              runtime := lo.runtime, warnings := lo.warnings }
      ∧ ({ module_table := { normal_modules := ["a"], external_modules := [] },
           ast_table := [],
           entry_points := [{ name := some "main", module_id := 0 }],
           symbols := { final_names := [] },
           runtime := { id := 0 },
           warnings := [BuildError.other "circular dependency"] } : ScanStageOutput).warnings
          = lo.warnings :=
  scan_success_output_components resolver_ok loader_ok
    [{ name := some "main", import_ := "a" }] []
    { module_table := { normal_modules := ["a"], external_modules := [] },
      ast_table := [],
      entry_points := [{ name := some "main", module_id := 0 }],
      symbols := { final_names := [] },
      runtime := { id := 0 },
      warnings := [BuildError.other "circular dependency"] }
    rfl

/-- C8: two scan runs on identical inputs (same input list, same resolver,
plugin-pipeline and module-loader behaviour) are identical — trace and result,
hence ModuleId assignment order and final Global Symbol Registry names —
whatever the completion orders of the concurrent resolution tasks were. -/
theorem scan_deterministic (resolver : ResolverFn) (loader : LoaderFn)
    (input : List InputItem) (sched₁ sched₂ : List Nat) :
    scan resolver loader input sched₁ = scan resolver loader input sched₂ := by
  simp only [scan, resolve_user_defined_entries, block_on_spawn_all_eq_map]

/-- C9: every resolver call a scan performs for a user entry passes no importer
(none), is_entry = true, kind = Import and preserve_symlinks = false, and its
specifier is the import field of one of the input items. -/
theorem scan_entry_resolution_args (resolver : ResolverFn) (loader : LoaderFn)
    (input : List InputItem) (sched : List Nat)
    (s : String) (imp : Option String) (opts : HookResolveIdArgsOptions) (psl : Bool)
    (h : ScanEvent.ResolveCall s imp opts psl ∈ (scan resolver loader input sched).fst) :
    imp = none ∧ opts = { is_entry := true, kind := ImportKind.Import } ∧ psl = false
      ∧ ∃ item ∈ input, s = item.import_ := by
  have hcall : ∃ item ∈ input,
      ScanEvent.ResolveCall s imp opts psl = (resolve_entry_item resolver item).fst := by
    by_cases hin : input = []
    · subst hin
      rw [scan_empty_input_fatal] at h
      exact absurd h (by simp)
    · have hmm : ScanEvent.ResolveCall s imp opts psl
          ∈ (resolve_user_defined_entries resolver input sched).fst := by
        cases hsnd : (resolve_user_defined_entries resolver input sched).snd with
        | error errs =>
          rw [scan_of_resolve_error resolver loader input sched errs hin hsnd] at h
          rcases List.mem_cons.mp h with habs | hmm
          · exact absurd habs (by simp)
          · exact hmm
        | ok entries =>
          cases hload : loader entries with
          | error errs =>
            rw [scan_of_resolve_ok_loader_error resolver loader input sched entries errs
                  hin hsnd hload] at h
            rcases List.mem_cons.mp h with habs | hmm
            · exact absurd habs (by simp)
            · rcases List.mem_append.mp hmm with hmm | habs
              · exact hmm
              · exact absurd habs (by simp)
          | ok out =>
            rw [scan_of_resolve_ok_loader_ok resolver loader input sched entries out
                  hin hsnd hload] at h
            rcases List.mem_cons.mp h with habs | hmm
            · exact absurd habs (by simp)
            · rcases List.mem_append.mp hmm with hmm | habs
              · exact hmm
              · exact absurd habs (by simp)
      rw [resolve_entries_fst] at hmm
      obtain ⟨item, hitem, heq⟩ := List.mem_map.mp hmm
      exact ⟨item, hitem, heq.symm⟩
  obtain ⟨item, hitem, heq⟩ := hcall
  rw [resolve_entry_item_fst] at heq
  injection heq with h1 h2 h3 h4
  exact ⟨h2, h3, h4, item, hitem, h1⟩

/-- C9 witness: the resolver call recorded for the single entry "a" carries
importer none, is_entry = true, kind = Import, preserve_symlinks = false. -/
theorem scan_entry_resolution_args_witness :
    (none : Option String) = none
      ∧ ({ is_entry := true, kind := ImportKind.Import } : HookResolveIdArgsOptions)
          = { is_entry := true, kind := ImportKind.Import }
      ∧ false = false
      ∧ ∃ item ∈ [({ name := none, import_ := "a" } : InputItem)], "a" = item.import_ :=
  scan_entry_resolution_args resolver_ok loader_ok [{ name := none, import_ := "a" }] []
    "a" none { is_entry := true, kind := ImportKind.Import } false (by decide)

/-- C10: when all entries resolve successfully, the entry at input position i
— whose own resolution is Ok info with is_external = false — appears at output
position i paired with that item's own optional user-given name and that
item's own resolution result: names are never dropped or attached to another
entry's resolution, whatever the completion order. -/
theorem resolve_entries_pair_own_name (resolver : ResolverFn) (input : List InputItem)
    (sched : List Nat) (i : Nat) (item : InputItem) (info : ResolvedRequestInfo)
    (hall : ∀ it ∈ input, exceptIsOk (resolve_entry_item resolver it).snd = true)
    (hi : input[i]? = some item)
    (hres : resolver item.import_ none { is_entry := true, kind := ImportKind.Import } false
              = Except.ok info)
    (hext : info.is_external = false) :
    ∃ out, (resolve_user_defined_entries resolver input sched).snd = Except.ok out
      ∧ out[i]? = some (item.name, info) := by
  obtain ⟨hlen, hidx⟩ := collect_oks_of_all_ok resolver input hall
  refine ⟨_, resolve_entries_snd_ok resolver input sched hall, ?_⟩
  rw [hidx i, hi]
  show exceptToOption (resolve_entry_item resolver item).snd = some (item.name, info)
  rw [resolve_entry_item_snd_of_ok resolver item info hres hext]
  rfl

/-- C10 witness: with entries "a" (named "x") and "b" (named "y") resolved
under the completion schedule [1, 0], position 1 of the output pairs "y" with
the resolution of "b" itself. -/
theorem resolve_entries_pair_own_name_witness :
    ∃ out,
      (resolve_user_defined_entries resolver_ok
          [{ name := some "x", import_ := "a" }, { name := some "y", import_ := "b" }]
          [1, 0]).snd = Except.ok out
      ∧ out[1]?
          = some (some "y", { path := { path := "b" }, is_external := false }) :=
  resolve_entries_pair_own_name resolver_ok
    [{ name := some "x", import_ := "a" }, { name := some "y", import_ := "b" }]
    [1, 0] 1 { name := some "y", import_ := "b" }
    { path := { path := "b" }, is_external := false }
    (by decide) rfl rfl rfl
